import Mathlib

/-
Verification of the m3u-player playback core against its design document.

The JavaScript sources are embedded shallowly:
  * `src/utils/streamDetector.js`   — `detectStreamType`, `needsRemuxing`
  * `src/components/UniversalPlayer.jsx` — `shouldUseNativePlayer`, the
    backend-selection branch of `init`, the live Shaka configuration and the
    `cleanup` teardown function
  * `src/services/RemuxerService.js` — the virtual-filesystem effects of
    `remuxToFmp4` and `getMediaInfo`
  * `src/context/PlayerContext.jsx` — `playerReducer`, `getSavedPosition`
  * `src/App.jsx`                   — the resume-prompt threshold

JavaScript strings are Lean `String`s; the string operations used by the
sources (`includes`, `endsWith`, `startsWith`, `toLowerCase`) are modelled on
the underlying character lists.  Numbers that the sources only store and
compare are rationals (positions, progress) and integers (millisecond
timestamps); no floating-point rounding is exercised by any claim.
-/

namespace M3UPlayer

/-- JavaScript `hay.includes(needle)`: substring test on character lists. -/
def jsIncludes (hay needle : String) : Bool :=
  decide (needle.data <:+: hay.data)

/-- JavaScript `s.endsWith(suffix)`: suffix test on character lists. -/
def jsEndsWith (s postfixStr : String) : Bool :=
  decide (postfixStr.data <:+ s.data)

/-- JavaScript `s.startsWith(p)`. -/
def jsStartsWith (s p : String) : Bool :=
  decide (p.data <+: s.data)

/-- JavaScript `s.toLowerCase()` on the ASCII range. -/
def jsToLower (s : String) : String :=
  ⟨s.data.map Char.toLower⟩

/-- Drop the first `n` characters of a string. -/
def strDropChars (s : String) (n : Nat) : String :=
  ⟨s.data.drop n⟩

/-- Longest prefix of the characters of `s` satisfying `p`. -/
def takeWhileCh (p : Char → Bool) (s : String) : String :=
  ⟨s.data.takeWhile p⟩

/-- Model of the pathname computed by the platform URL constructor
`new URL(input, window.location.origin)` as used by `detectStreamType`
(streamDetector.js line 30).  `none` models the constructor throwing a
`TypeError`.  The model covers the input family this development exercises:
absolute `http://` / `https://` references whose authority consists of
alphanumeric characters, dots and hyphens (an empty or otherwise invalid
authority throws, e.g. the input consisting of a bare scheme `http://`),
root-relative references, and scheme-less relative paths resolved against the
page origin.  Userinfo, ports, IPv6 hosts, percent-escapes, non-http schemes
and dot-segment normalisation lie outside the modelled family and are not
used by any theorem below. -/
def jsURLPathname (input : String) : Option String :=
  let hostOk : String → Bool := fun h =>
    !h.data.isEmpty && h.data.all (fun c => c.isAlphanum || c = '.' || c = '-')
  let afterScheme : Option String :=
    if jsStartsWith input "http://" then some (strDropChars input 7)
    else if jsStartsWith input "https://" then some (strDropChars input 8)
    else none
  match afterScheme with
  | some rest =>
      let host := takeWhileCh (fun c => c ≠ '/' && c ≠ '?' && c ≠ '#') rest
      if hostOk host then
        let tailPart := strDropChars rest host.data.length
        if jsStartsWith tailPart "/" then
          some (takeWhileCh (fun c => c ≠ '?' && c ≠ '#') tailPart)
        else some "/"
      else none
  | none =>
      if jsStartsWith input "/" then
        some (takeWhileCh (fun c => c ≠ '?' && c ≠ '#') input)
      else if input.data.any (fun c => c = ':') then none
      else some ⟨'/' :: input.data.takeWhile (fun c => c ≠ '?' && c ≠ '#')⟩

/-- The `StreamType` enumeration of streamDetector.js. -/
inductive StreamType where
  | hls
  | dash
  | mp4
  | webm
  | mpegTs
  | mkv
  | avi
  | unknown
deriving DecidableEq, Repr

/-- The `StreamCategory` enumeration of streamDetector.js. -/
inductive StreamCategory where
  | native
  | live
  | remux
deriving DecidableEq, Repr

/-- The descriptor `{type, category}` returned by `detectStreamType`. -/
structure StreamDescriptor where
  type : StreamType
  category : StreamCategory
deriving DecidableEq, Repr

/-- The platform exceptions relevant here: the URL constructor's TypeError. -/
inductive JSError where
  | typeError
deriving DecidableEq, Repr

/-- The matching chain of `detectStreamType` (streamDetector.js lines 33-66),
applied to the already-lowercased full URL and the already-lowercased
pathname. -/
def detectStreamTypeCore (urlLower pathname : String) : StreamDescriptor :=
  if jsIncludes urlLower ".m3u8" || jsIncludes urlLower "format=m3u8" then
    ⟨.hls, .live⟩
  else if jsIncludes urlLower ".mpd" then
    ⟨.dash, .live⟩
  else if jsEndsWith pathname ".ts" || jsIncludes urlLower "format=ts" then
    ⟨.mpegTs, .live⟩
  else if jsEndsWith pathname ".mp4" || jsEndsWith pathname ".m4v" then
    ⟨.mp4, .native⟩
  else if jsEndsWith pathname ".webm" then
    ⟨.webm, .native⟩
  else if jsEndsWith pathname ".mkv" then
    ⟨.mkv, .remux⟩
  else if jsEndsWith pathname ".avi" then
    ⟨.avi, .remux⟩
  else
    ⟨.unknown, .native⟩

/-- `detectStreamType` (streamDetector.js lines 26-67).  A falsy (empty) URL
returns `{UNKNOWN, NATIVE}` before the URL constructor runs; otherwise the
constructor call `new URL(url, window.location.origin)` is unguarded, so an
input it rejects makes the function throw, modelled as `.error`. -/
def detectStreamType (url : String) : Except JSError StreamDescriptor :=
  if url = "" then .ok ⟨.unknown, .native⟩
  else
    match jsURLPathname url with
    | none => .error .typeError
    | some p => .ok (detectStreamTypeCore (jsToLower url) (jsToLower p))

/-- `needsRemuxing` (streamDetector.js lines 114-116). -/
def needsRemuxing (t : StreamType) : Bool :=
  [StreamType.mkv, StreamType.avi].contains t

/-- `shouldUseNativePlayer` (UniversalPlayer.jsx lines 24-28). -/
def shouldUseNativePlayer (t : StreamType) : Bool :=
  [StreamType.mp4, StreamType.webm].contains t

/-- The three playback paths of `init` (UniversalPlayer.jsx lines 277-288):
the remux pipeline, the native video element, or the Shaka adaptive engine
(whose path constructs a `shaka.Player` instance). -/
inductive Backend where
  | remux
  | native
  | adaptive
deriving DecidableEq, Repr

/-- The backend-selection branch of `init` (UniversalPlayer.jsx lines
277-288): remux if `needsRemuxing(type)`, else native if
`shouldUseNativePlayer(type)`, else the Shaka adaptive path. -/
def selectBackend (t : StreamType) : Backend :=
  if needsRemuxing t then .remux
  else if shouldUseNativePlayer t then .native
  else .adaptive

/-- A Shaka `retryParameters` record as written in the two configuration
literals of `initShakaPlayer` (UniversalPlayer.jsx lines 170-180).  A field
absent from the source literal is `none` (the engine default applies). -/
structure RetryParameters where
  maxAttempts : Nat
  baseDelay : Nat
  backoffFactor : Option ℚ
deriving DecidableEq, Repr

/-- The object passed to `player.configure` for live streams
(UniversalPlayer.jsx lines 162-183): the `streaming` block and the
`manifest` block, each with its own `retryParameters`. -/
structure LiveStreamingProfile where
  lowLatencyMode : Bool
  inaccurateManifestTolerance : ℚ
  rebufferingGoal : ℚ
  bufferingGoal : ℚ
  bufferBehind : ℚ
  streamingRetry : RetryParameters
  manifestRetry : RetryParameters
deriving DecidableEq, Repr

/-- The literal configuration `initShakaPlayer` applies when `isLive`:
`streaming.retryParameters` carries `maxAttempts: 10, baseDelay: 500,
backoffFactor: 1.5`; `manifest.retryParameters` carries only
`maxAttempts: 10, baseDelay: 500` (no `backoffFactor` key). -/
def shakaLiveConfig : LiveStreamingProfile :=
  { lowLatencyMode := true
    inaccurateManifestTolerance := 0
    rebufferingGoal := 0.5
    bufferingGoal := 2
    bufferBehind := 10
    streamingRetry := { maxAttempts := 10, baseDelay := 500, backoffFactor := some 1.5 }
    manifestRetry := { maxAttempts := 10, baseDelay := 500, backoffFactor := none } }

/-- `player.configure` runs only under `if (isLive)` in `initShakaPlayer`
(UniversalPlayer.jsx line 162); otherwise no profile is applied. -/
def shakaConfigFor (isLive : Bool) : Option LiveStreamingProfile :=
  if isLive then some shakaLiveConfig else none

/-- Outcome of a RemuxerService call: the promise resolved (`ok`) or rejected
(`error`), together with the names present in the FFmpeg virtual filesystem
when the call returns. -/
inductive VfsOutcome where
  | ok (vfs : List String)
  | error (vfs : List String)
deriving DecidableEq, Repr

/-- The final virtual filesystem of a `VfsOutcome`. -/
def VfsOutcome.vfsOf : VfsOutcome → List String
  | .ok v => v
  | .error v => v

/-- Virtual-filesystem effects of `RemuxerService.remuxToFmp4`
(RemuxerService.js lines 87-114), sequenced as in the source: fetch the
input (`fetchOk` is the oracle for the fetch promise), `writeFile` the input,
`exec` (`execOk` is the oracle for the exec promise; success materialises
`output.mp4`), `readFile`, then `deleteFile(inputName)` and
`deleteFile(outputName)`.  The two deletes are not in a `finally` block, so a
rejecting step propagates with the files written so far still present. -/
def remuxToFmp4 (vfs : List String) (inputFormat : String)
    (fetchOk execOk : Bool) : VfsOutcome :=
  let inputName := "input." ++ inputFormat
  let outputName := "output.mp4"
  if !fetchOk then .error vfs
  else
    let vfs₁ := inputName :: vfs
    if !execOk then .error vfs₁
    else
      let vfs₂ := outputName :: vfs₁
      .ok ((vfs₂.erase inputName).erase outputName)

/-- Virtual-filesystem effects of `RemuxerService.getMediaInfo`
(RemuxerService.js lines 176-219): fetch a prefix of the source (`fetchOk`
oracle), `writeFile` the input, run `exec` inside `try { ... } catch {}` —
its outcome (oracle `execOk`, unused because the catch swallows both cases
and no output file is requested) — then `deleteFile(inputName)`. -/
def getMediaInfo (vfs : List String) (inputFormat : String)
    (fetchOk : Bool) (execOk : Bool) : VfsOutcome :=
  let inputName := "input." ++ inputFormat
  if !fetchOk then .error vfs
  else
    let vfs₁ := inputName :: vfs
    let _ := execOk
    .ok (vfs₁.erase inputName)

/-- A `history` entry `{position, timestamp}` (PlayerContext.jsx line 130);
positions are seconds (rational), timestamps are `Date.now()` milliseconds. -/
structure HistoryEntry where
  position : ℚ
  timestamp : ℤ
deriving DecidableEq, Repr

/-- The `history` mapping keyed by URL; the reducer's object spread makes the
most recent binding for a key the visible one, modelled by consing and
first-match lookup. -/
abbrev History := List (String × HistoryEntry)

/-- The `mediaInfo` slice of the player state (PlayerContext.jsx lines
26-32); all fields start as `null`. -/
structure MediaInfo where
  videoCodec : Option String
  audioCodec : Option String
  width : Option ℤ
  height : Option ℤ
  bitrate : Option ℤ
deriving DecidableEq, Repr

/-- A SET_MEDIA_INFO payload: the object spread `{...state.mediaInfo,
...payload}` overwrites exactly the keys present in the payload, so each
payload field is an outer `Option` (absent key = `none`). -/
structure MediaInfoPatch where
  videoCodec : Option (Option String)
  audioCodec : Option (Option String)
  width : Option (Option ℤ)
  height : Option (Option ℤ)
  bitrate : Option (Option ℤ)
deriving DecidableEq, Repr

/-- The spread merge `{...state.mediaInfo, ...payload}`. -/
def MediaInfo.merge (m : MediaInfo) (p : MediaInfoPatch) : MediaInfo where
  videoCodec := p.videoCodec.getD m.videoCodec
  audioCodec := p.audioCodec.getD m.audioCodec
  width := p.width.getD m.width
  height := p.height.getD m.height
  bitrate := p.bitrate.getD m.bitrate

/-- The player state held by `playerReducer` (PlayerContext.jsx lines 9-41). -/
structure PlayerState where
  url : Option String
  isPlaying : Bool
  currentTime : ℚ
  duration : ℚ
  buffered : ℚ
  volume : ℚ
  muted : Bool
  playbackRate : ℚ
  streamType : Option String
  streamCategory : Option String
  isLive : Bool
  mediaInfo : MediaInfo
  status : String
  error : Option String
  remuxProgress : ℚ
  history : History
deriving DecidableEq, Repr

/-- `initialState` (PlayerContext.jsx lines 9-41). -/
def initialState : PlayerState :=
  { url := none
    isPlaying := false
    currentTime := 0
    duration := 0
    buffered := 0
    volume := 1
    muted := false
    playbackRate := 1
    streamType := none
    streamCategory := none
    isLive := false
    mediaInfo :=
      { videoCodec := none, audioCodec := none, width := none
        height := none, bitrate := none }
    status := "idle"
    error := none
    remuxProgress := 0
    history := [] }

/-- The closed action set of the reducer (PlayerContext.jsx lines 44-61).
`savePosition` carries the `Date.now()` value read when the reducer runs;
`unhandled` stands for any unknown action kind (the `default` branch). -/
inductive PlayerAction where
  | setUrl (url : Option String)
  | setPlaying (playing : Bool)
  | setTime (t : ℚ)
  | setDuration (d : ℚ)
  | setBuffered (b : ℚ)
  | setVolume (v : ℚ)
  | setMuted (m : Bool)
  | setPlaybackRate (r : ℚ)
  | setStreamInfo (ty : Option String) (cat : Option String) (live : Option Bool)
  | setMediaInfo (p : MediaInfoPatch)
  | setStatus (s : String)
  | setError (e : Option String)
  | setRemuxProgress (p : ℚ)
  | savePosition (url : String) (position : ℚ) (now : ℤ)
  | loadHistory (h : History)
  | reset
  | unhandled
deriving DecidableEq

/-- `playerReducer` (PlayerContext.jsx lines 64-145), case by case in source
order. -/
def playerReducer (state : PlayerState) (action : PlayerAction) : PlayerState :=
  match action with
  | .setUrl u =>
      { state with url := u, status := "loading", error := none
                   currentTime := 0, duration := 0 }
  | .setPlaying b =>
      { state with isPlaying := b, status := if b then "playing" else "paused" }
  | .setTime t => { state with currentTime := t }
  | .setDuration d => { state with duration := d }
  | .setBuffered b => { state with buffered := b }
  | .setVolume v => { state with volume := v }
  | .setMuted m => { state with muted := m }
  | .setPlaybackRate r => { state with playbackRate := r }
  | .setStreamInfo ty cat live =>
      { state with streamType := ty, streamCategory := cat
                   isLive := live.getD false }
  | .setMediaInfo p => { state with mediaInfo := state.mediaInfo.merge p }
  | .setStatus s => { state with status := s }
  | .setError e => { state with status := "error", error := e }
  | .setRemuxProgress p =>
      { state with remuxProgress := p, status := "remuxing" }
  | .savePosition url pos now =>
      { state with history := (url, ⟨pos, now⟩) :: state.history }
  | .loadHistory h => { state with history := h }
  | .reset => { initialState with history := state.history }
  | .unhandled => state

/-- Seven days in milliseconds, as in `getSavedPosition`
(PlayerContext.jsx line 240). -/
def msPerWeek : ℤ := 7 * 24 * 60 * 60 * 1000

/-- `getSavedPosition` (PlayerContext.jsx lines 236-246): look the URL up in
the history; return the stored position if the entry's timestamp is strictly
newer than `Date.now() - 7 days`, else 0. -/
def getSavedPosition (history : History) (url : String) (now : ℤ) : ℚ :=
  match history.find? (fun e => e.1 == url) with
  | some e => if e.2.timestamp > now - msPerWeek then e.2.position else 0
  | none => 0

/-- The resume-eligibility gate of the demo UI (`handleReady` in App.jsx):
the saved position must exceed 5 seconds before a prompt is shown.  The
store itself applies no such threshold. -/
def shouldPromptResume (savedPos : ℚ) : Bool :=
  decide (savedPos > 5)

/-- The session resources owned by `UniversalPlayer` and released by
`cleanup` (UniversalPlayer.jsx lines 74-97): the Shaka player ref, the
object-URL ref and the video element, plus cumulative counters of the
observable teardown effects (`player.destroy()` calls and
`URL.revokeObjectURL` calls).  `destroyRejects` records whether the engine's
destroy promise would reject; `cleanup` catches that case and only logs a
warning, so the transformer is total either way. -/
structure SessionResources where
  hasPlayer : Bool
  hasObjectUrl : Bool
  hasVideo : Bool
  videoPaused : Bool
  videoSrc : String
  destroyRejects : Bool
  destroyCalls : Nat
  revokeCalls : Nat
deriving DecidableEq, Repr

/-- `cleanup` (UniversalPlayer.jsx lines 74-97): destroy the Shaka player if
one is live (errors caught, ref nulled regardless), revoke the object URL if
one is held (ref nulled), then pause the video and clear its source. -/
def cleanup (s : SessionResources) : SessionResources :=
  let s₁ :=
    if s.hasPlayer then
      { s with hasPlayer := false, destroyCalls := s.destroyCalls + 1 }
    else s
  let s₂ :=
    if s₁.hasObjectUrl then
      { s₁ with hasObjectUrl := false, revokeCalls := s₁.revokeCalls + 1 }
    else s₁
  if s₂.hasVideo then { s₂ with videoPaused := true, videoSrc := "" } else s₂

/-- The kind/category coupling invariant of the classifier: REMUX exactly for
MKV/AVI, LIVE exactly for HLS/DASH/MPEG-TS, NATIVE in every other case. -/
abbrev kindCategoryCoupling (d : StreamDescriptor) : Prop :=
  (d.category = .remux ↔ d.type = .mkv ∨ d.type = .avi) ∧
  (d.category = .live ↔ d.type = .hls ∨ d.type = .dash ∨ d.type = .mpegTs) ∧
  (¬(d.type = .mkv ∨ d.type = .avi ∨ d.type = .hls ∨ d.type = .dash ∨
      d.type = .mpegTs) → d.category = .native)

/-- The lowercased URL contains none of the markers that match before the
path-extension checks of `detectStreamType`: the `.m3u8` / `format=m3u8`
HLS markers, the `.mpd` DASH marker and the `format=ts` marker. -/
abbrev noEarlierMarker (urlLower : String) : Prop :=
  jsIncludes urlLower ".m3u8" = false ∧
  jsIncludes urlLower "format=m3u8" = false ∧
  jsIncludes urlLower ".mpd" = false ∧
  jsIncludes urlLower "format=ts" = false

theorem jsEndsWith_excl (s a b : String)
    (hab : ¬ a.data <:+ b.data) (hba : ¬ b.data <:+ a.data)
    (ha : jsEndsWith s a = true) : jsEndsWith s b = false := by
  unfold jsEndsWith at ha ⊢
  rw [decide_eq_true_iff] at ha
  rw [decide_eq_false_iff_not]
  intro hb
  rcases List.suffix_or_suffix_of_suffix ha hb with h | h
  · exact hab h
  · exact hba h

theorem coupling_core (u p : String) :
    kindCategoryCoupling (detectStreamTypeCore u p) := by
  unfold detectStreamTypeCore
  split_ifs <;> decide

/-- C1: the claim says a kind-UNKNOWN URL takes the native element path with
no adaptive-engine instance; the code's `shouldUseNativePlayer` admits only
MP4 and WEBM, so `init` falls through to `initShakaPlayer`, which constructs
a `shaka.Player`.  This contradicts both the spec and the classifier's own
comment that UNKNOWN "will try native playback first". -/
theorem unknown_type_selects_adaptive_backend :
    selectBackend StreamType.unknown = Backend.adaptive ∧
    selectBackend StreamType.unknown ≠ Backend.native ∧
    shouldUseNativePlayer StreamType.unknown = false := by
  decide

/-- C2 counterexample: `detectStreamType` is claimed never to raise, but the
unguarded `new URL` call throws on the non-empty input consisting of the bare
scheme `http://` (an empty authority), so the function raises there. -/
theorem detect_throws_on_bare_scheme :
    detectStreamType "http://" = .error .typeError ∧ "http://" ≠ "" :=
  ⟨rfl, by decide⟩

/-- C2 amended: `detectStreamType` returns UNKNOWN/NATIVE for the empty
string, returns a descriptor (never raises) for every input the platform URL
constructor accepts, and defaults to UNKNOWN/NATIVE when no marker or
extension matches; only inputs rejected by the URL constructor make it
throw. -/
theorem detect_total_on_parsable_inputs :
    detectStreamType "" = Except.ok ⟨.unknown, .native⟩ ∧
    (∀ url p, url ≠ "" → jsURLPathname url = some p →
      detectStreamType url =
        Except.ok (detectStreamTypeCore (jsToLower url) (jsToLower p))) ∧
    (∀ u p,
      jsIncludes u ".m3u8" = false → jsIncludes u "format=m3u8" = false →
      jsIncludes u ".mpd" = false →
      jsEndsWith p ".ts" = false → jsIncludes u "format=ts" = false →
      jsEndsWith p ".mp4" = false → jsEndsWith p ".m4v" = false →
      jsEndsWith p ".webm" = false →
      jsEndsWith p ".mkv" = false → jsEndsWith p ".avi" = false →
      detectStreamTypeCore u p = ⟨.unknown, .native⟩) := by
  refine ⟨rfl, ?_, ?_⟩
  · intro url p hu hp
    unfold detectStreamType
    rw [if_neg hu, hp]
  · intro u p h1 h2 h3 h4 h5 h6 h7 h8 h9 h10
    simp [detectStreamTypeCore, h1, h2, h3, h4, h5, h6, h7, h8, h9, h10]

theorem detect_total_on_parsable_inputs_w :
    detectStreamType "https://host.example/file.bin" =
      Except.ok (detectStreamTypeCore
        (jsToLower "https://host.example/file.bin") (jsToLower "/file.bin")) ∧
    detectStreamTypeCore "https://host.example/file.bin" "/file.bin" =
      ⟨.unknown, .native⟩ :=
  ⟨detect_total_on_parsable_inputs.2.1 "https://host.example/file.bin"
      "/file.bin" (by decide) (by decide),
   detect_total_on_parsable_inputs.2.2 "https://host.example/file.bin"
      "/file.bin" (by decide) (by decide) (by decide) (by decide) (by decide)
      (by decide) (by decide) (by decide) (by decide) (by decide)⟩

/-- C3: `remuxToFmp4` is claimed to delete its virtual files on every failure
path, but a rejecting `ffmpeg.exec` propagates before the `deleteFile` calls,
leaving `input.mkv` behind; the success path and both `getMediaInfo` paths do
clean up. -/
theorem remux_leaks_input_on_exec_failure :
    remuxToFmp4 [] "mkv" true false = .error ["input.mkv"] ∧
    "input.mkv" ∈ (remuxToFmp4 [] "mkv" true false).vfsOf ∧
    remuxToFmp4 [] "mkv" true true = .ok [] ∧
    getMediaInfo [] "mkv" true false = .ok [] ∧
    getMediaInfo [] "mkv" true true = .ok [] := by
  decide

/-- C4 counterexample: the retry configurations applied to manifest and
segment retrieval are not identical — the manifest block omits the
`backoffFactor: 1.5` field that the streaming (segment) block carries. -/
theorem manifest_retry_differs_from_segment_retry :
    shakaLiveConfig.manifestRetry ≠ shakaLiveConfig.streamingRetry ∧
    shakaLiveConfig.manifestRetry.backoffFactor = none := by
  refine ⟨?_, rfl⟩
  decide

/-- C4 amended: on the live profile, manifest and segment retrieval share
`maxAttempts = 10` and `baseDelay = 500 ms`, but the 1.5 exponential backoff
multiplier is set only for segment retrieval; the manifest block leaves
`backoffFactor` unset (engine default). -/
theorem live_retry_config_amended :
    shakaConfigFor true = some shakaLiveConfig ∧
    shakaConfigFor false = none ∧
    shakaLiveConfig.streamingRetry.maxAttempts = 10 ∧
    shakaLiveConfig.manifestRetry.maxAttempts = 10 ∧
    shakaLiveConfig.streamingRetry.baseDelay = 500 ∧
    shakaLiveConfig.manifestRetry.baseDelay = 500 ∧
    shakaLiveConfig.streamingRetry.backoffFactor = some 1.5 ∧
    shakaLiveConfig.manifestRetry.backoffFactor = none :=
  ⟨rfl, rfl, rfl, rfl, rfl, rfl, rfl, rfl⟩

/-- C5 counterexample: a URL whose pathname ends in `.mkv` is claimed to be
classified REMUX, but the `.m3u8` substring check runs first over the whole
URL, so `https://host.example/a.m3u8.mkv` is classified HLS/LIVE. -/
theorem mkv_url_with_m3u8_marker_not_remux :
    jsEndsWith (jsToLower "https://host.example/a.m3u8.mkv") ".mkv" = true ∧
    jsURLPathname "https://host.example/a.m3u8.mkv" = some "/a.m3u8.mkv" ∧
    detectStreamType "https://host.example/a.m3u8.mkv" =
      Except.ok ⟨.hls, .live⟩ := by
  refine ⟨by decide, by decide, rfl⟩

/-- C5 amended: the extension clauses hold once no earlier-precedence marker
matches first: with no `.m3u8`, `format=m3u8`, `.mpd` or `format=ts` in the
lowercased URL, a pathname ending `.mkv`/`.avi` classifies REMUX,
`.mp4`/`.m4v`/`.webm` classifies NATIVE; a URL containing `.m3u8` classifies
LIVE unconditionally, and one containing `.mpd` with no m3u8 marker
classifies LIVE.  Matching is case-insensitive and the query string is
excluded by using the parsed pathname. -/
theorem extension_classification_amended (url p : String)
    (hu : url ≠ "") (hp : jsURLPathname url = some p) :
    (noEarlierMarker (jsToLower url) →
      jsEndsWith (jsToLower p) ".mkv" = true →
      detectStreamType url = Except.ok ⟨.mkv, .remux⟩) ∧
    (noEarlierMarker (jsToLower url) →
      jsEndsWith (jsToLower p) ".avi" = true →
      detectStreamType url = Except.ok ⟨.avi, .remux⟩) ∧
    (noEarlierMarker (jsToLower url) →
      jsEndsWith (jsToLower p) ".mp4" = true →
      detectStreamType url = Except.ok ⟨.mp4, .native⟩) ∧
    (noEarlierMarker (jsToLower url) →
      jsEndsWith (jsToLower p) ".m4v" = true →
      detectStreamType url = Except.ok ⟨.mp4, .native⟩) ∧
    (noEarlierMarker (jsToLower url) →
      jsEndsWith (jsToLower p) ".webm" = true →
      detectStreamType url = Except.ok ⟨.webm, .native⟩) ∧
    (jsIncludes (jsToLower url) ".m3u8" = true →
      detectStreamType url = Except.ok ⟨.hls, .live⟩) ∧
    (jsIncludes (jsToLower url) ".mpd" = true →
      jsIncludes (jsToLower url) ".m3u8" = false →
      jsIncludes (jsToLower url) "format=m3u8" = false →
      detectStreamType url = Except.ok ⟨.dash, .live⟩) := by
  have hw : detectStreamType url =
      Except.ok (detectStreamTypeCore (jsToLower url) (jsToLower p)) := by
    unfold detectStreamType
    rw [if_neg hu, hp]
  rw [hw]
  refine ⟨?_, ?_, ?_, ?_, ?_, ?_, ?_⟩
  · rintro ⟨e1, e2, e3, e4⟩ he
    have hts := jsEndsWith_excl _ ".mkv" ".ts" (by decide) (by decide) he
    have hm4 := jsEndsWith_excl _ ".mkv" ".mp4" (by decide) (by decide) he
    have hv4 := jsEndsWith_excl _ ".mkv" ".m4v" (by decide) (by decide) he
    have hwe := jsEndsWith_excl _ ".mkv" ".webm" (by decide) (by decide) he
    simp [detectStreamTypeCore, e1, e2, e3, e4, hts, hm4, hv4, hwe, he]
  · rintro ⟨e1, e2, e3, e4⟩ he
    have hts := jsEndsWith_excl _ ".avi" ".ts" (by decide) (by decide) he
    have hm4 := jsEndsWith_excl _ ".avi" ".mp4" (by decide) (by decide) he
    have hv4 := jsEndsWith_excl _ ".avi" ".m4v" (by decide) (by decide) he
    have hwe := jsEndsWith_excl _ ".avi" ".webm" (by decide) (by decide) he
    have hmk := jsEndsWith_excl _ ".avi" ".mkv" (by decide) (by decide) he
    simp [detectStreamTypeCore, e1, e2, e3, e4, hts, hm4, hv4, hwe, hmk, he]
  · rintro ⟨e1, e2, e3, e4⟩ he
    have hts := jsEndsWith_excl _ ".mp4" ".ts" (by decide) (by decide) he
    simp [detectStreamTypeCore, e1, e2, e3, e4, hts, he]
  · rintro ⟨e1, e2, e3, e4⟩ he
    have hts := jsEndsWith_excl _ ".m4v" ".ts" (by decide) (by decide) he
    simp [detectStreamTypeCore, e1, e2, e3, e4, hts, he]
  · rintro ⟨e1, e2, e3, e4⟩ he
    have hts := jsEndsWith_excl _ ".webm" ".ts" (by decide) (by decide) he
    have hm4 := jsEndsWith_excl _ ".webm" ".mp4" (by decide) (by decide) he
    have hv4 := jsEndsWith_excl _ ".webm" ".m4v" (by decide) (by decide) he
    simp [detectStreamTypeCore, e1, e2, e3, e4, hts, hm4, hv4, he]
  · intro hm
    simp [detectStreamTypeCore, hm]
  · intro hm h1 h2
    simp [detectStreamTypeCore, hm, h1, h2]

theorem extension_classification_amended_w :
    detectStreamType "https://host.example/movie.mkv" =
      Except.ok ⟨.mkv, .remux⟩ ∧
    detectStreamType "https://host.example/video.mp4" =
      Except.ok ⟨.mp4, .native⟩ ∧
    detectStreamType "https://host.example/playlist.m3u8" =
      Except.ok ⟨.hls, .live⟩ :=
  ⟨(extension_classification_amended "https://host.example/movie.mkv"
      "/movie.mkv" (by decide) (by decide)).1
      ⟨by decide, by decide, by decide, by decide⟩ (by decide),
   (extension_classification_amended "https://host.example/video.mp4"
      "/video.mp4" (by decide) (by decide)).2.2.1
      ⟨by decide, by decide, by decide, by decide⟩ (by decide),
   (extension_classification_amended "https://host.example/playlist.m3u8"
      "/playlist.m3u8" (by decide) (by decide)).2.2.2.2.2.1 (by decide)⟩

/-- C6: every descriptor the classifier returns satisfies the kind/category
coupling invariant: REMUX exactly for MKV/AVI, LIVE exactly for
HLS/DASH/MPEG-TS, NATIVE otherwise (UNKNOWN included). -/
theorem detect_kind_category_coupling (url : String) (d : StreamDescriptor)
    (h : detectStreamType url = Except.ok d) : kindCategoryCoupling d := by
  unfold detectStreamType at h
  by_cases hu : url = ""
  · rw [if_pos hu] at h
    simp only [Except.ok.injEq] at h
    rw [← h]
    decide
  · rw [if_neg hu] at h
    cases hp : jsURLPathname url with
    | none => rw [hp] at h; cases h
    | some p =>
        rw [hp] at h
        simp only [Except.ok.injEq] at h
        exact h ▸ coupling_core _ _

theorem detect_kind_category_coupling_w :
    kindCategoryCoupling ⟨.mp4, .native⟩ :=
  detect_kind_category_coupling "https://host.example/video.mp4"
    ⟨.mp4, .native⟩ rfl

/-- C7: dispatching SAVE_POSITION and then reading back through
`getSavedPosition` returns the saved position while fewer than 7 days have
elapsed, and 0 once the saved timestamp is older than 7 days. -/
theorem save_then_get_roundtrip (s : PlayerState) (url : String) (t : ℚ)
    (t₀ t₁ : ℤ) :
    (t₁ - t₀ < msPerWeek →
      getSavedPosition (playerReducer s (.savePosition url t t₀)).history
        url t₁ = t) ∧
    (msPerWeek < t₁ - t₀ →
      getSavedPosition (playerReducer s (.savePosition url t t₀)).history
        url t₁ = 0) := by
  have hh : (playerReducer s (.savePosition url t t₀)).history =
      (url, ⟨t, t₀⟩) :: s.history := rfl
  rw [hh]
  constructor <;> intro h <;>
    simp only [getSavedPosition, List.find?, beq_self_eq_true]
  · rw [if_pos (by simp only [msPerWeek] at h ⊢; omega)]
  · rw [if_neg (by simp only [msPerWeek] at h ⊢; omega)]

theorem save_then_get_roundtrip_w :
    getSavedPosition
      (playerReducer initialState (.savePosition "u" 42 1000)).history
      "u" 2000 = 42 ∧
    getSavedPosition
      (playerReducer initialState (.savePosition "u" 42 0)).history
      "u" (msPerWeek + 1) = 0 :=
  ⟨(save_then_get_roundtrip initialState "u" 42 1000 2000).1 (by decide),
   (save_then_get_roundtrip initialState "u" 42 0 (msPerWeek + 1)).2
     (by decide)⟩

/-- C8: `cleanup` is idempotent — running it a second time changes nothing
further, and in particular the second run performs zero additional
`destroy()` or `revokeObjectURL` calls; it is a total transformer (destroy
rejections are caught), so no error is thrown by either run. -/
theorem cleanup_idempotent (s : SessionResources) :
    cleanup (cleanup s) = cleanup s ∧
    (cleanup (cleanup s)).destroyCalls = (cleanup s).destroyCalls ∧
    (cleanup (cleanup s)).revokeCalls = (cleanup s).revokeCalls := by
  obtain ⟨hp, ho, hv, vp, vs, dr, dc, rc⟩ := s
  cases hp <;> cases ho <;> cases hv <;> simp [cleanup]

/-- C9: the store applies only the 7-day freshness check — any fresh entry's
position is returned as stored, 5 seconds or below included; the
greater-than-5-seconds resume gate exists only in the UI's `handleReady`
(`shouldPromptResume`), which rejects such small positions. -/
theorem store_returns_small_positions (h : History) (url : String)
    (pe : String × HistoryEntry) (now : ℤ)
    (hfind : h.find? (fun e => e.1 == url) = some pe)
    (hfresh : pe.2.timestamp > now - msPerWeek) :
    getSavedPosition h url now = pe.2.position ∧
    (pe.2.position ≤ 5 →
      shouldPromptResume (getSavedPosition h url now) = false) := by
  have hg : getSavedPosition h url now = pe.2.position := by
    simp only [getSavedPosition, hfind]
    rw [if_pos hfresh]
  refine ⟨hg, fun hle => ?_⟩
  rw [hg]
  simp only [shouldPromptResume, decide_eq_false_iff_not, not_lt]
  exact hle

theorem store_returns_small_positions_w :
    getSavedPosition [("u", ⟨3, 100⟩)] "u" 200 = 3 ∧
    ((3 : ℚ) ≤ 5 →
      shouldPromptResume (getSavedPosition [("u", ⟨3, 100⟩)] "u" 200) = false) :=
  store_returns_small_positions [("u", ⟨3, 100⟩)] "u" ("u", ⟨3, 100⟩) 200
    (by decide) (by decide)

/-- C10: SET_REMUX_PROGRESS sets `status` to "remuxing" alongside
`remuxProgress`, and every other field of the state — history, url, error
included — is left unchanged. -/
theorem set_remux_progress_frame (s : PlayerState) (p : ℚ) :
    (playerReducer s (.setRemuxProgress p)).status = "remuxing" ∧
    (playerReducer s (.setRemuxProgress p)).remuxProgress = p ∧
    (playerReducer s (.setRemuxProgress p)).url = s.url ∧
    (playerReducer s (.setRemuxProgress p)).isPlaying = s.isPlaying ∧
    (playerReducer s (.setRemuxProgress p)).currentTime = s.currentTime ∧
    (playerReducer s (.setRemuxProgress p)).duration = s.duration ∧
    (playerReducer s (.setRemuxProgress p)).buffered = s.buffered ∧
    (playerReducer s (.setRemuxProgress p)).volume = s.volume ∧
    (playerReducer s (.setRemuxProgress p)).muted = s.muted ∧
    (playerReducer s (.setRemuxProgress p)).playbackRate = s.playbackRate ∧
    (playerReducer s (.setRemuxProgress p)).streamType = s.streamType ∧
    (playerReducer s (.setRemuxProgress p)).streamCategory = s.streamCategory ∧
    (playerReducer s (.setRemuxProgress p)).isLive = s.isLive ∧
    (playerReducer s (.setRemuxProgress p)).mediaInfo = s.mediaInfo ∧
    (playerReducer s (.setRemuxProgress p)).error = s.error ∧
    (playerReducer s (.setRemuxProgress p)).history = s.history :=
  ⟨rfl, rfl, rfl, rfl, rfl, rfl, rfl, rfl, rfl, rfl, rfl, rfl, rfl, rfl,
   rfl, rfl⟩

end M3UPlayer
